import Mathlib

/-!
Verification of the ICD-10 WHO batch pipeline
(`scripts/icd10who_processor.py`, `utils/common_functions.py`).

The tabular data is embedded positionally: a `DataFrame` is a list of
column names together with rows of optional string cells (`none` models
a pandas `NaN` produced by `read_csv(dtype=str)` for a missing value).
Python string operations are embedded for the ASCII range the code
actually handles: `str.strip` as `pyStrip`, `str.upper` as `pyUpper`,
`str.title` as `pyTitle`, and `astype(str)` as `pyStr`
(which renders a missing value as the literal string "nan", exactly as
pandas stringifies `NaN`).  The regex `^[A-Z][0-9][0-9](\.[0-9A-Z]{1,4})?$`
is embedded as the decidable predicate `matchICD10`; it is always applied
to strings that were already stripped, so the `$`/trailing-newline
subtlety of Python `re` cannot arise.
-/

/-- A row of a pandas DataFrame read with `dtype=str`: one optional text
cell per column, positionally aligned with the column list. -/
abbrev Row : Type := List (Option String)

/-- A pandas DataFrame: ordered column names and rows of text cells. -/
structure DataFrame where
  cols : List String
  rows : List Row
deriving DecidableEq, Repr

/-- Index of a column name in the column list (first occurrence), as
pandas column lookup resolves a label. -/
def DataFrame.colIdx (df : DataFrame) (c : String) : Option Nat :=
  df.cols.findIdx? (· == c)

/-- Value of column `c` in row `r` of `df` (`none` when the column is
absent or the cell is missing). -/
def DataFrame.getVal (df : DataFrame) (r : Row) (c : String) : Option String :=
  match df.colIdx c with
  | some i => r.getD i none
  | none => none

/-- Python `astype(str)` on one cell: pandas stringifies `NaN` as "nan". -/
def pyStr : Option String → String
  | none => "nan"
  | some s => s

/-- Python `str.strip()`: remove leading and trailing whitespace. -/
def pyStrip (s : String) : String :=
  ⟨((s.data.dropWhile Char.isWhitespace).reverse.dropWhile
      Char.isWhitespace).reverse⟩

/-- Python `str.upper()` on the ASCII range. -/
def pyUpper (s : String) : String :=
  ⟨s.data.map Char.toUpper⟩

/-- Embeds `astype(str).str.strip().str.upper()` applied to one cell, the
normalisation `validate_icd10_data` applies to the `Code` column. -/
def normCode (v : Option String) : String :=
  pyUpper (pyStrip (pyStr v))

/-- Tail of the ICD-10 regex after the letter and two digits: either
empty or a dot followed by 1–4 characters from `[0-9A-Z]`. -/
def matchICD10Tail : List Char → Bool
  | [] => true
  | '.' :: tail =>
      decide (1 ≤ tail.length) && decide (tail.length ≤ 4) &&
        tail.all (fun c => c.isDigit || c.isUpper)
  | _ => false

/-- The pattern `^[A-Z][0-9][0-9](\.[0-9A-Z]{1,4})?$` (`ICD10_PATTERN`),
as a full match on an already-stripped string. -/
def matchICD10 (s : String) : Bool :=
  match s.data with
  | c :: d1 :: d2 :: rest =>
      c.isUpper && d1.isDigit && d2.isDigit && matchICD10Tail rest
  | _ => false

/-- The in-place update `df["Code"] = df["Code"].astype(str).str.strip()
.str.upper()` restricted to one row, where `i` is the position of the
`Code` column.  (`List.set` out of range is a no-op, which cannot occur
for well-formed frames.) -/
def mutRow (i : Nat) (r : Row) : Row :=
  r.set i (some (normCode (r.getD i none)))

/-- The validity mask of `validate_icd10_data`, evaluated on a row that
already carries the normalised `Code` cell at position `i`. -/
def validMask (i : Nat) (r : Row) : Bool :=
  matchICD10 (pyStr (r.getD i none))

/-- Embeds `validate_icd10_data(df)`.  Checks the required columns `Code` and
`Description` in that order, then normalises the `Code` column in place,
and splits the (mutated) frame by the regex mask.  The first component of
the result is the mutated argument frame (Python mutates `df` itself);
the second and third are `valid_rows` and `invalid_rows`. -/
def validate_icd10_data (df : DataFrame) :
    Except String (DataFrame × DataFrame × DataFrame) :=
  match df.colIdx "Code", df.colIdx "Description" with
  | none, _ => .error "Missing required column: Code"
  | some _, none => .error "Missing required column: Description"
  | some i, some _ =>
      let rows2 := df.rows.map (mutRow i)
      let valid := rows2.filter (validMask i)
      let invalid := rows2.filter (fun r => ! validMask i r)
      .ok (⟨df.cols, rows2⟩, ⟨df.cols, valid⟩, ⟨df.cols, invalid⟩)

/-- Python `str.title()` over a character list, threading whether the
previous character was alphabetic (word-internal position). -/
def pyTitleAux : Bool → List Char → List Char
  | _, [] => []
  | prevAlpha, c :: cs =>
      (if c.isAlpha then (if prevAlpha then c.toLower else c.toUpper) else c)
        :: pyTitleAux c.isAlpha cs

/-- Python `str.title()` on the ASCII range: upper-case the first letter
of every maximal alphabetic run, lower-case the rest. -/
def pyTitle (s : String) : String :=
  ⟨pyTitleAux false s.data⟩

/-- Embeds `astype(str).str.strip().str.title()`, the normalisation
`basic_cleanup` applies to the `description` column. -/
def normDescription (v : Option String) : String :=
  pyTitle (pyStrip (pyStr v))

/-- The column renaming of `clean_icd10_data`:
`rename(columns={"Code": "code", "Description": "description"})`. -/
def renameCols (cols : List String) : List String :=
  cols.map fun c =>
    if c == "Code" then "code"
    else if c == "Description" then "description"
    else c

/-- Embeds `basic_cleanup(df)` (from `utils/common_functions.py`): if a `code`
column exists, stringify/strip/upper it in place; if a `description`
column exists, stringify/strip/title it in place. -/
def basic_cleanup (df : DataFrame) : DataFrame :=
  let df1 : DataFrame :=
    match df.colIdx "code" with
    | some i => ⟨df.cols, df.rows.map (mutRow i)⟩
    | none => df
  match df1.colIdx "description" with
  | some j =>
      ⟨df1.cols, df1.rows.map fun r =>
        r.set j (some (normDescription (r.getD j none)))⟩
  | none => df1

/-- The row predicate of `dropna(subset=["code", "description"])`:
keep a row iff both cells are non-null, with `i`, `j` the positions of
the `code` and `description` columns. -/
def dropnaKeep (i j : Nat) (r : Row) : Bool :=
  (r.getD i none).isSome && (r.getD j none).isSome

/-- Embeds `drop_duplicates(subset=["code"])` with the default `keep="first"`:
keep a row iff its `code` cell (position `i`) was not seen earlier. -/
def dedupeBy (i : Nat) : List Row → List (Option String) → List Row
  | [], _ => []
  | r :: rest, seen =>
      let k := r.getD i none
      if k ∈ seen then dedupeBy i rest seen
      else r :: dedupeBy i rest (k :: seen)

/-- Embeds `clean_icd10_data(df)` with the run timestamp `now` passed
explicitly (the code stamps `datetime.utcnow().strftime(...)`).  Rename,
`basic_cleanup`, `dropna` on the key columns, `drop_duplicates` on
`code` keeping the first, then append the `last_updated` column.  pandas
raises a `KeyError` when `dropna`/`drop_duplicates` name an absent
column, embedded as the `Except.error` branches. -/
def clean_icd10_data (df : DataFrame) (now : String) :
    Except String DataFrame :=
  let df2 := basic_cleanup ⟨renameCols df.cols, df.rows⟩
  match df2.colIdx "code", df2.colIdx "description" with
  | some i, some j =>
      let kept := df2.rows.filter (dropnaKeep i j)
      let deduped := dedupeBy i kept []
      .ok ⟨df2.cols ++ ["last_updated"], deduped.map (· ++ [some now])⟩
  | none, _ => .error "KeyError: code"
  | some _, none => .error "KeyError: description"

/-- A file-system effect performed by a persister. -/
inductive FsEffect where
  | mkdirParents (path : String)
  | writeCsv (path : String) (df : DataFrame)
deriving DecidableEq, Repr

/-- pandas `DataFrame.empty`: true iff the frame has no rows or no
columns. -/
def DataFrame.isEmptyFrame (df : DataFrame) : Bool :=
  df.rows.isEmpty || df.cols.isEmpty

/-- Embeds `save_invalid_rows(df, base_path)`: returns the list of file-system
effects performed.  An empty frame returns immediately with no effects;
otherwise the parent directory is created and `base_path + ".csv"` is
written with the frame as given. -/
def save_invalid_rows (df : DataFrame) (basePath : String) : List FsEffect :=
  if df.isEmptyFrame then []
  else [.mkdirParents basePath, .writeCsv (basePath ++ ".csv") df]

/-- The invalid-rows persisting step of `main`: `save_invalid_rows` is
only called under the guard `if not invalid_df.empty`. -/
def persistInvalidStep (df : DataFrame) (basePath : String) : List FsEffect :=
  if df.isEmptyFrame then [] else save_invalid_rows df basePath

/-- Outcome of one `requests.get` attempt as seen by
`download_icd10_file`: a network/timeout exception, an HTTP error status
(what `raise_for_status` throws on), or a response body. -/
inductive AttemptOutcome where
  | netError (msg : String)
  | httpError (msg : String)
  | success (content : String)
deriving DecidableEq, Repr

/-- One iteration of the download loop body: the error it raises, or the
non-empty content it would write.  An empty body raises
`ValueError("Downloaded file is empty")`. -/
def runAttempt : AttemptOutcome → Except String String
  | .netError m => .error m
  | .httpError m => .error m
  | .success c => if c = "" then .error "Downloaded file is empty" else .ok c

/-- The retry loop of `download_icd10_file`: walks the attempt outcomes,
returning the first success together with the number of attempts made
and the contents written to the target file; when the outcomes run out
(the retry bound), re-raises the last error, writing nothing. -/
def downloadLoop : List AttemptOutcome → Option String →
    Except String String × Nat × List String
  | [], lastError => (.error (lastError.getD "no attempts"), 0, [])
  | o :: rest, _ =>
      match runAttempt o with
      | .ok c => (.ok c, 1, [c])
      | .error e =>
          let (r, n, w) := downloadLoop rest (some e)
          (r, n + 1, w)

/-- The `retries` default of `download_icd10_file`. -/
def DOWNLOAD_RETRIES : Nat := 3

/-- Embeds `download_icd10_file(url, target_path)`: rejects an empty URL, then
runs at most `retries` attempts drawn from `outcomes`.  Returns the
result, the number of attempts made, and the list of contents written
to the target path. -/
def download_icd10_file (url : String) (outcomes : List AttemptOutcome)
    (retries : Nat) : Except String String × Nat × List String :=
  if url = "" then
    (.error "ICD10WHO_URL is not set. Set it in your environment or place the file manually in input/.",
      0, [])
  else downloadLoop (outcomes.take retries) none

/-- The constant `RAW_FILE`, relative to the project base directory. -/
def RAW_FILE : String := "input/icd10who_codes_2024.csv"

/-- The `FileNotFoundError` message of `ensure_raw_file_exists`. -/
def MISSING_INPUT_MSG : String :=
  "ICD-10 input file not found at " ++ RAW_FILE ++ " and ICD10WHO_URL is not set."

/-- Embeds `ensure_raw_file_exists()`: `fileExists` models `RAW_FILE.exists()`,
`dataUrl` models the `ICD10WHO_URL` environment value (empty when
unset), and `outcomes` feeds any download attempts.  Returns the
resulting path or error, the number of network attempts made, and the
contents written. -/
def ensure_raw_file_exists (fileExists : Bool) (dataUrl : String)
    (outcomes : List AttemptOutcome) :
    Except String String × Nat × List String :=
  if fileExists then (.ok RAW_FILE, 0, [])
  else if dataUrl ≠ "" then
    match download_icd10_file dataUrl outcomes DOWNLOAD_RETRIES with
    | (.ok _, n, w) => (.ok RAW_FILE, n, w)
    | (.error e, n, w) => (.error e, n, w)
  else (.error MISSING_INPUT_MSG, 0, [])

/-! ### Helper lemmas -/

theorem colIdx_none_iff (df : DataFrame) (c : String) :
    df.colIdx c = none ↔ c ∉ df.cols := by
  simp only [DataFrame.colIdx, List.findIdx?_eq_none_iff]
  constructor
  · intro h hc
    have := h c hc
    simp at this
  · intro h x hx
    simp only [beq_eq_false_iff_ne, ne_eq]
    intro e
    exact h (e ▸ hx)

theorem downloadLoop_attempts_le (os : List AttemptOutcome) :
    ∀ last, (downloadLoop os last).2.1 ≤ os.length := by
  induction os with
  | nil => intro last; simp [downloadLoop]
  | cons o rest ih =>
    intro last
    simp only [downloadLoop]
    cases h : runAttempt o with
    | ok c => simp
    | error e =>
      simpa using Nat.succ_le_succ (ih (some e))

theorem downloadLoop_error_writes (os : List AttemptOutcome) :
    ∀ last e, (downloadLoop os last).1 = .error e →
      (downloadLoop os last).2.2 = [] := by
  induction os with
  | nil => intro last e _; simp [downloadLoop]
  | cons o rest ih =>
    intro last e h
    simp only [downloadLoop] at h ⊢
    cases ha : runAttempt o with
    | ok c => simp [ha] at h ⊢
    | error e2 =>
      have h2 := ih (some e2)
      rcases hdl : downloadLoop rest (some e2) with ⟨r, n, w⟩
      rw [hdl] at h2
      simp only [ha, hdl] at h ⊢
      exact h2 e h

/-! ### Claim theorems -/

/-- C6: `validate_icd10_data` fails iff a required column is absent; a
missing `Code` or `Description` column yields the corresponding
"Missing required column" error, and when both columns are present it
returns without error regardless of the row contents. -/
theorem validate_fails_iff_missing_column (df : DataFrame) :
    ((validate_icd10_data df).isOk = true ↔
      ("Code" ∈ df.cols ∧ "Description" ∈ df.cols)) ∧
    ("Code" ∉ df.cols →
      validate_icd10_data df = .error "Missing required column: Code") ∧
    ("Code" ∈ df.cols → "Description" ∉ df.cols →
      validate_icd10_data df = .error "Missing required column: Description") := by
  cases hC : df.colIdx "Code" with
  | none =>
    have hCm : "Code" ∉ df.cols := (colIdx_none_iff df "Code").mp hC
    refine ⟨?_, fun _ => ?_, fun hmem _ => absurd hmem hCm⟩
    · simp [validate_icd10_data, hC, Except.isOk, Except.toBool, hCm]
    · simp [validate_icd10_data, hC]
  | some i =>
    have hCm : "Code" ∈ df.cols := by
      by_contra hmem
      rw [(colIdx_none_iff df "Code").mpr hmem] at hC
      cases hC
    cases hD : df.colIdx "Description" with
    | none =>
      have hDm : "Description" ∉ df.cols := (colIdx_none_iff df "Description").mp hD
      refine ⟨?_, fun hmem => absurd hCm hmem, fun _ _ => ?_⟩
      · simp [validate_icd10_data, hC, hD, Except.isOk, Except.toBool, hDm]
      · simp [validate_icd10_data, hC, hD]
    | some j =>
      have hDm : "Description" ∈ df.cols := by
        by_contra hmem
        rw [(colIdx_none_iff df "Description").mpr hmem] at hD
        cases hD
      refine ⟨?_, fun hmem => absurd hCm hmem, fun _ hmem => absurd hDm hmem⟩
      simp [validate_icd10_data, hC, hD, Except.isOk, Except.toBool, hCm, hDm]

/-- Witness for C6 at concrete inputs: a frame without `Code` errors
naming `Code`, and a frame with both columns succeeds. -/
theorem validate_fails_iff_missing_column_witness :
    validate_icd10_data ⟨["Description"], []⟩ =
      .error "Missing required column: Code" ∧
    (validate_icd10_data ⟨["Code", "Description"], [[none, none]]⟩).isOk = true := by
  constructor
  · exact (validate_fails_iff_missing_column ⟨["Description"], []⟩).2.1 (by decide)
  · exact (validate_fails_iff_missing_column
      ⟨["Code", "Description"], [[none, none]]⟩).1.mpr (by simp)

/-- C7: the fetcher returns the existing local file untouched with no
network attempt; with no local file and no configured URL it fails with
the missing-input error, which names the expected path and the
`ICD10WHO_URL` configuration key, again with no network attempt and no
write. -/
theorem ensure_raw_file_local_or_config_error (dataUrl : String)
    (outcomes : List AttemptOutcome) :
    ensure_raw_file_exists true dataUrl outcomes = (.ok RAW_FILE, 0, []) ∧
    ensure_raw_file_exists false "" outcomes =
      (.error MISSING_INPUT_MSG, 0, []) ∧
    MISSING_INPUT_MSG =
      "ICD-10 input file not found at " ++ RAW_FILE ++
        " and ICD10WHO_URL is not set." := by
  refine ⟨rfl, ?_, rfl⟩
  simp [ensure_raw_file_exists]

/-- C9: persisting the invalid partition is a no-op when it has no rows:
no directory is created and no file is written, both for
`save_invalid_rows` itself and for the guarded call in `main`. -/
theorem save_invalid_rows_empty_noop (df : DataFrame) (basePath : String)
    (h : df.rows = []) :
    save_invalid_rows df basePath = [] ∧
    persistInvalidStep df basePath = [] := by
  constructor <;>
    simp [save_invalid_rows, persistInvalidStep, DataFrame.isEmptyFrame, h]

/-- Witness for C9: a rowless frame produces no file-system effects. -/
theorem save_invalid_rows_empty_noop_witness :
    save_invalid_rows ⟨["Code", "Description"], []⟩ "output/errors/icd10who_invalid" = [] ∧
    persistInvalidStep ⟨["Code", "Description"], []⟩ "output/errors/icd10who_invalid" = [] :=
  save_invalid_rows_empty_noop ⟨["Code", "Description"], []⟩
    "output/errors/icd10who_invalid" rfl

/-- C8: with a non-empty URL the download helper makes at most 3
attempts; a failed run writes nothing to the target path; and when the
first three attempt outcomes all fail, the helper fails with the third
(last) error after exactly 3 attempts, having written nothing. -/
theorem download_retry_bound (url : String) (outcomes : List AttemptOutcome)
    (h : url ≠ "") :
    (download_icd10_file url outcomes DOWNLOAD_RETRIES).2.1 ≤ DOWNLOAD_RETRIES ∧
    (∀ e, (download_icd10_file url outcomes DOWNLOAD_RETRIES).1 = .error e →
      (download_icd10_file url outcomes DOWNLOAD_RETRIES).2.2 = []) ∧
    (∀ o1 o2 o3 rest e1 e2 e3,
      outcomes = o1 :: o2 :: o3 :: rest →
      runAttempt o1 = .error e1 → runAttempt o2 = .error e2 →
      runAttempt o3 = .error e3 →
      download_icd10_file url outcomes DOWNLOAD_RETRIES = (.error e3, 3, [])) := by
  refine ⟨?_, ?_, ?_⟩
  · have hle := downloadLoop_attempts_le (outcomes.take DOWNLOAD_RETRIES) none
    have hlen : (outcomes.take DOWNLOAD_RETRIES).length ≤ DOWNLOAD_RETRIES := by
      simp [List.length_take]
    simp only [download_icd10_file, if_neg h]
    exact Nat.le_trans hle hlen
  · intro e he
    simp only [download_icd10_file, if_neg h] at he ⊢
    exact downloadLoop_error_writes (outcomes.take DOWNLOAD_RETRIES) none e he
  · intro o1 o2 o3 rest e1 e2 e3 ho h1 h2 h3
    subst ho
    simp [download_icd10_file, if_neg h, DOWNLOAD_RETRIES, downloadLoop, h1, h2, h3]

/-- Witness for C8: three failing attempts (a network error, an HTTP
error, and an empty body) exhaust the retries and the last error is
reported with nothing written. -/
theorem download_retry_bound_witness :
    download_icd10_file "http://example.org/icd.csv"
      [.netError "timeout", .httpError "500 Server Error", .success ""]
      DOWNLOAD_RETRIES = (.error "Downloaded file is empty", 3, []) :=
  (download_retry_bound "http://example.org/icd.csv"
    [.netError "timeout", .httpError "500 Server Error", .success ""]
    (by decide)).2.2 (.netError "timeout") (.httpError "500 Server Error")
    (.success "") [] "timeout" "500 Server Error" "Downloaded file is empty"
    rfl rfl rfl rfl

/-- C2: on success, `validate_icd10_data` partitions the (normalised)
rows totally and disjointly: the valid and invalid sides are the mask
filter and its complement, their lengths sum to the input length, their
concatenation is a permutation of the processed rows, and no row
satisfies both sides' mask values. -/
theorem validate_partitions_input (df dfA v inv : DataFrame)
    (h : validate_icd10_data df = .ok (dfA, v, inv)) :
    ∃ i, df.colIdx "Code" = some i ∧
      v.rows = (df.rows.map (mutRow i)).filter (validMask i) ∧
      inv.rows = (df.rows.map (mutRow i)).filter (fun r => ! validMask i r) ∧
      v.rows.length + inv.rows.length = df.rows.length ∧
      (v.rows ++ inv.rows).Perm (df.rows.map (mutRow i)) ∧
      (∀ r ∈ v.rows, validMask i r = true) ∧
      (∀ r ∈ inv.rows, validMask i r = false) := by
  cases hC : df.colIdx "Code" with
  | none => simp [validate_icd10_data, hC] at h
  | some i =>
    cases hD : df.colIdx "Description" with
    | none => simp [validate_icd10_data, hC, hD] at h
    | some j =>
      simp only [validate_icd10_data, hC, hD, Except.ok.injEq, Prod.mk.injEq] at h
      obtain ⟨hA, hv, hinv⟩ := h
      refine ⟨i, rfl, ?_, ?_, ?_, ?_, ?_, ?_⟩
      · rw [← hv]
      · rw [← hinv]
      · rw [← hv, ← hinv]
        simp only
        rw [← List.length_map df.rows (mutRow i)]
        exact (List.length_eq_length_filter_add (validMask i)).symm
      · rw [← hv, ← hinv]
        exact List.filter_append_perm (validMask i) (df.rows.map (mutRow i))
      · intro r hr
        rw [← hv] at hr
        exact (List.mem_filter.mp hr).2
      · intro r hr
        rw [← hinv] at hr
        have := (List.mem_filter.mp hr).2
        simpa using this

/-- Witness for C2 at a concrete frame: one valid and one invalid row. -/
theorem validate_partitions_input_witness :
    ∃ i, (⟨["Code", "Description"],
        [[some "A01", some "x"], [some "BAD", some "y"]]⟩ : DataFrame).colIdx
          "Code" = some i ∧
      (⟨["Code", "Description"], [[some "A01", some "x"]]⟩ : DataFrame).rows =
        (([[some "A01", some "x"], [some "BAD", some "y"]] :
          List Row).map (mutRow i)).filter (validMask i) ∧
      (⟨["Code", "Description"], [[some "BAD", some "y"]]⟩ : DataFrame).rows =
        (([[some "A01", some "x"], [some "BAD", some "y"]] :
          List Row).map (mutRow i)).filter (fun r => ! validMask i r) ∧
      (⟨["Code", "Description"], [[some "A01", some "x"]]⟩ : DataFrame).rows.length +
        (⟨["Code", "Description"], [[some "BAD", some "y"]]⟩ : DataFrame).rows.length =
        ([[some "A01", some "x"], [some "BAD", some "y"]] : List Row).length ∧
      ((⟨["Code", "Description"], [[some "A01", some "x"]]⟩ : DataFrame).rows ++
        (⟨["Code", "Description"], [[some "BAD", some "y"]]⟩ : DataFrame).rows).Perm
        (([[some "A01", some "x"], [some "BAD", some "y"]] :
          List Row).map (mutRow i)) ∧
      (∀ r ∈ (⟨["Code", "Description"], [[some "A01", some "x"]]⟩ : DataFrame).rows,
        validMask i r = true) ∧
      (∀ r ∈ (⟨["Code", "Description"], [[some "BAD", some "y"]]⟩ : DataFrame).rows,
        validMask i r = false) :=
  validate_partitions_input
    ⟨["Code", "Description"], [[some "A01", some "x"], [some "BAD", some "y"]]⟩
    ⟨["Code", "Description"], [[some "A01", some "x"], [some "BAD", some "y"]]⟩
    ⟨["Code", "Description"], [[some "A01", some "x"]]⟩
    ⟨["Code", "Description"], [[some "BAD", some "y"]]⟩ rfl

theorem colIdx_lt_length {df : DataFrame} {c : String} {i : Nat}
    (h : df.colIdx c = some i) : i < df.cols.length :=
  ((List.findIdx?_eq_some_iff_findIdx_eq.mp h).1)

theorem colIdx_getElem {df : DataFrame} {c : String} {i : Nat}
    (h : df.colIdx c = some i) :
    df.cols.get ⟨i, colIdx_lt_length h⟩ = c := by
  obtain ⟨hlt, hidx⟩ := List.findIdx?_eq_some_iff_findIdx_eq.mp h
  have hp := @List.findIdx_getElem _ (· == c) df.cols (hidx ▸ hlt)
  simp only [beq_iff_eq] at hp
  rw [List.get_eq_getElem]
  exact hidx ▸ hp

theorem getD_set_self {r : Row} {i : Nat} (h : i < r.length)
    (v : Option String) : (r.set i v).getD i none = v := by
  simp [List.getD_eq_getElem?_getD, List.getElem?_set_self h]

theorem getD_set_ne {r : Row} {i k : Nat} (h : i ≠ k) (v : Option String) :
    (r.set i v).getD k none = r.getD k none := by
  simp [List.getD_eq_getElem?_getD, List.getElem?_set_ne h]

theorem mutRow_getD_self {i : Nat} {r : Row} (h : i < r.length) :
    (mutRow i r).getD i none = some (normCode (r.getD i none)) :=
  getD_set_self h _

theorem mutRow_getD_ne {i k : Nat} {r : Row} (h : k ≠ i) :
    (mutRow i r).getD k none = r.getD k none :=
  getD_set_ne (Ne.symm h) _

theorem mutRow_length (i : Nat) (r : Row) : (mutRow i r).length = r.length :=
  List.length_set r i _

/-- C1 (amended): with both required columns present, a record goes to
the valid partition iff its code — stringified, trimmed, upper-cased —
matches the ICD-10 pattern.  A null code stringifies to "NAN", which
never matches, so null-code records are always invalid; but the
partition depends only on the code cell, so a record with a null
description and a matching code is placed in the valid partition. -/
theorem validate_valid_iff_code_matches (df dfA v inv : DataFrame)
    (h : validate_icd10_data df = .ok (dfA, v, inv)) :
    ∃ i, df.colIdx "Code" = some i ∧
      v.rows = (df.rows.map (mutRow i)).filter (validMask i) ∧
      inv.rows = (df.rows.map (mutRow i)).filter (fun r => ! validMask i r) ∧
      (∀ r : Row, i < r.length →
        validMask i (mutRow i r) = matchICD10 (normCode (r.getD i none))) ∧
      normCode none = "NAN" ∧
      matchICD10 "NAN" = false ∧
      (∀ r₁ r₂ : Row, r₁.getD i none = r₂.getD i none →
        validMask i r₁ = validMask i r₂) := by
  cases hC : df.colIdx "Code" with
  | none => simp [validate_icd10_data, hC] at h
  | some i =>
    cases hD : df.colIdx "Description" with
    | none => simp [validate_icd10_data, hC, hD] at h
    | some j =>
      simp only [validate_icd10_data, hC, hD, Except.ok.injEq, Prod.mk.injEq] at h
      obtain ⟨hA, hv, hinv⟩ := h
      refine ⟨i, rfl, ?_, ?_, ?_, by decide, by decide, ?_⟩
      · rw [← hv]
      · rw [← hinv]
      · intro r hlt
        simp only [validMask, mutRow_getD_self hlt, pyStr]
      · intro r₁ r₂ he
        simp only [validMask, he]

/-- Witness for C1 (amended) at a concrete frame with one matching-code,
null-description row. -/
theorem validate_valid_iff_code_matches_witness :
    ∃ i, (⟨["Code", "Description"], [[some "A01", none]]⟩ : DataFrame).colIdx
        "Code" = some i ∧
      (⟨["Code", "Description"], [[some "A01", none]]⟩ : DataFrame).rows =
        (([[some "A01", none]] : List Row).map (mutRow i)).filter (validMask i) ∧
      (⟨["Code", "Description"], ([] : List Row)⟩ : DataFrame).rows =
        (([[some "A01", none]] : List Row).map (mutRow i)).filter
          (fun r => ! validMask i r) ∧
      (∀ r : Row, i < r.length →
        validMask i (mutRow i r) = matchICD10 (normCode (r.getD i none))) ∧
      normCode none = "NAN" ∧
      matchICD10 "NAN" = false ∧
      (∀ r₁ r₂ : Row, r₁.getD i none = r₂.getD i none →
        validMask i r₁ = validMask i r₂) :=
  validate_valid_iff_code_matches
    ⟨["Code", "Description"], [[some "A01", none]]⟩
    ⟨["Code", "Description"], [[some "A01", none]]⟩
    ⟨["Code", "Description"], [[some "A01", none]]⟩
    ⟨["Code", "Description"], []⟩ rfl

/-- Counterexample to C1 as stated: a record with a matching code and a
null description is placed in the valid partition (the invalid
partition is empty), not in the invalid partition. -/
theorem validate_null_description_not_invalid_cex :
    validate_icd10_data ⟨["Code", "Description"], [[some "A01", none]]⟩ =
      .ok (⟨["Code", "Description"], [[some "A01", none]]⟩,
        ⟨["Code", "Description"], [[some "A01", none]]⟩,
        ⟨["Code", "Description"], []⟩) := rfl

/-- C4 (amended): on success, validation mutates the caller's frame in
exactly one place — each `Code` cell is replaced by its normalised
value; the column list, the row count, and every non-`Code` cell are
unchanged. -/
theorem validate_mutates_only_code (df dfA v inv : DataFrame)
    (h : validate_icd10_data df = .ok (dfA, v, inv)) :
    dfA.cols = df.cols ∧
    dfA.rows.length = df.rows.length ∧
    ∃ i, df.colIdx "Code" = some i ∧
      dfA.rows = df.rows.map (mutRow i) ∧
      (∀ (r : Row) (k : Nat), k ≠ i →
        (mutRow i r).getD k none = r.getD k none) ∧
      (∀ r : Row, i < r.length →
        (mutRow i r).getD i none = some (normCode (r.getD i none))) := by
  cases hC : df.colIdx "Code" with
  | none => simp [validate_icd10_data, hC] at h
  | some i =>
    cases hD : df.colIdx "Description" with
    | none => simp [validate_icd10_data, hC, hD] at h
    | some j =>
      simp only [validate_icd10_data, hC, hD, Except.ok.injEq, Prod.mk.injEq] at h
      obtain ⟨hA, hv, hinv⟩ := h
      refine ⟨?_, ?_, i, rfl, ?_, ?_, ?_⟩
      · rw [← hA]
      · rw [← hA]; simp
      · rw [← hA]
      · intro r k hk
        exact mutRow_getD_ne hk
      · intro r hlt
        exact mutRow_getD_self hlt

/-- Witness for C4 (amended) at a concrete frame. -/
theorem validate_mutates_only_code_witness :
    (⟨["Code", "Description"], [[some "A01", some "x"]]⟩ : DataFrame).cols =
      (⟨["Code", "Description"], [[some " a01 ", some "x"]]⟩ : DataFrame).cols ∧
    (⟨["Code", "Description"], [[some "A01", some "x"]]⟩ : DataFrame).rows.length =
      (⟨["Code", "Description"], [[some " a01 ", some "x"]]⟩ : DataFrame).rows.length ∧
    ∃ i, (⟨["Code", "Description"], [[some " a01 ", some "x"]]⟩ : DataFrame).colIdx
        "Code" = some i ∧
      (⟨["Code", "Description"], [[some "A01", some "x"]]⟩ : DataFrame).rows =
        ([[some " a01 ", some "x"]] : List Row).map (mutRow i) ∧
      (∀ (r : Row) (k : Nat), k ≠ i →
        (mutRow i r).getD k none = r.getD k none) ∧
      (∀ r : Row, i < r.length →
        (mutRow i r).getD i none = some (normCode (r.getD i none))) :=
  validate_mutates_only_code
    ⟨["Code", "Description"], [[some " a01 ", some "x"]]⟩
    ⟨["Code", "Description"], [[some "A01", some "x"]]⟩
    ⟨["Code", "Description"], [[some "A01", some "x"]]⟩
    ⟨["Code", "Description"], []⟩ rfl

/-- Counterexample to C4 as stated: validation changes the caller's
frame — the code " a01 " is rewritten to "A01" in place, so the frame
after the call differs from the frame before it. -/
theorem validate_mutates_input_cex :
    validate_icd10_data ⟨["Code", "Description"], [[some " a01 ", some "x"]]⟩ =
      .ok (⟨["Code", "Description"], [[some "A01", some "x"]]⟩,
        ⟨["Code", "Description"], [[some "A01", some "x"]]⟩,
        ⟨["Code", "Description"], []⟩) ∧
    (⟨["Code", "Description"], [[some "A01", some "x"]]⟩ : DataFrame) ≠
      ⟨["Code", "Description"], [[some " a01 ", some "x"]]⟩ :=
  ⟨rfl, by decide⟩

/-- C10: every record in the invalid partition carries the trimmed,
upper-cased code produced during validation (it is the in-place mutated
form of an input record), and `save_invalid_rows` writes that partition
to the error file exactly as given — so the persisted code is the
normalised form, not the raw input text. -/
theorem invalid_rows_persisted_normalized (df dfA v inv : DataFrame)
    (basePath : String)
    (hWF : ∀ r ∈ df.rows, r.length = df.cols.length)
    (h : validate_icd10_data df = .ok (dfA, v, inv))
    (hne : inv.rows ≠ []) :
    inv.cols = df.cols ∧
    ∃ i, df.colIdx "Code" = some i ∧
      (∀ r ∈ inv.rows, ∃ orig ∈ df.rows, r = mutRow i orig ∧
        r.getD i none = some (normCode (orig.getD i none))) ∧
      save_invalid_rows inv basePath =
        [.mkdirParents basePath, .writeCsv (basePath ++ ".csv") inv] := by
  cases hC : df.colIdx "Code" with
  | none => simp [validate_icd10_data, hC] at h
  | some i =>
    cases hD : df.colIdx "Description" with
    | none => simp [validate_icd10_data, hC, hD] at h
    | some j =>
      simp only [validate_icd10_data, hC, hD, Except.ok.injEq, Prod.mk.injEq] at h
      obtain ⟨hA, hv, hinv⟩ := h
      have hcols : inv.cols = df.cols := by rw [← hinv]
      refine ⟨hcols, i, rfl, ?_, ?_⟩
      · intro r hr
        rw [← hinv] at hr
        simp only at hr
        have hr2 := List.mem_of_mem_filter hr
        obtain ⟨orig, ho, hor⟩ := List.mem_map.mp hr2
        refine ⟨orig, ho, hor.symm, ?_⟩
        have hlt : i < orig.length := by
          rw [hWF orig ho]
          exact colIdx_lt_length hC
        rw [← hor]
        exact mutRow_getD_self hlt
      · have hcne : df.cols ≠ [] := by
          intro he
          have := colIdx_lt_length hC
          rw [he] at this
          simp at this
        have h1 : inv.rows.isEmpty = false := by
          cases hrows : inv.rows with
          | nil => exact absurd hrows hne
          | cons a l => simp
        have h2 : inv.cols.isEmpty = false := by
          rw [hcols]
          cases hcl : df.cols with
          | nil => exact absurd hcl hcne
          | cons a l => simp
        simp [save_invalid_rows, DataFrame.isEmptyFrame, h1, h2]

/-- Witness for C10: the raw code " bad " is persisted as "BAD". -/
theorem invalid_rows_persisted_normalized_witness :
    (⟨["Code", "Description"], [[some "BAD", some "bar"]]⟩ : DataFrame).cols =
      (⟨["Code", "Description"], [[some " bad ", some "bar"]]⟩ : DataFrame).cols ∧
    ∃ i, (⟨["Code", "Description"], [[some " bad ", some "bar"]]⟩ : DataFrame).colIdx
        "Code" = some i ∧
      (∀ r ∈ (⟨["Code", "Description"], [[some "BAD", some "bar"]]⟩ : DataFrame).rows,
        ∃ orig ∈ ([[some " bad ", some "bar"]] : List Row), r = mutRow i orig ∧
          r.getD i none = some (normCode (orig.getD i none))) ∧
      save_invalid_rows ⟨["Code", "Description"], [[some "BAD", some "bar"]]⟩
          "output/errors/icd10who_invalid" =
        [.mkdirParents "output/errors/icd10who_invalid",
          .writeCsv ("output/errors/icd10who_invalid" ++ ".csv")
            ⟨["Code", "Description"], [[some "BAD", some "bar"]]⟩] :=
  invalid_rows_persisted_normalized
    ⟨["Code", "Description"], [[some " bad ", some "bar"]]⟩
    ⟨["Code", "Description"], [[some "BAD", some "bar"]]⟩
    ⟨["Code", "Description"], []⟩
    ⟨["Code", "Description"], [[some "BAD", some "bar"]]⟩
    "output/errors/icd10who_invalid"
    (by intro r hr; simp at hr; rw [hr]; rfl) rfl (by simp)

/-- The per-row effect of `basic_cleanup` when both key columns are
present at positions `i` (code) and `j` (description): normalise the
code cell, then normalise the description cell of the updated row. -/
def cleanupRow (i j : Nat) (r : Row) : Row :=
  (mutRow i r).set j (some (normDescription ((mutRow i r).getD j none)))

theorem cleanupRow_length (i j : Nat) (r : Row) :
    (cleanupRow i j r).length = r.length := by
  simp [cleanupRow, mutRow_length]

theorem cleanupRow_getD_code {i j : Nat} {r : Row} (hij : i ≠ j)
    (hi : i < r.length) :
    (cleanupRow i j r).getD i none = some (normCode (r.getD i none)) := by
  unfold cleanupRow
  rw [getD_set_ne (Ne.symm hij), mutRow_getD_self hi]

theorem cleanupRow_getD_desc {i j : Nat} {r : Row} (hij : i ≠ j)
    (hj : j < r.length) :
    (cleanupRow i j r).getD j none = some (normDescription (r.getD j none)) := by
  unfold cleanupRow
  rw [getD_set_self (by rw [mutRow_length]; exact hj),
    mutRow_getD_ne (Ne.symm hij)]

theorem basic_cleanup_cols (df : DataFrame) :
    (basic_cleanup df).cols = df.cols := by
  unfold basic_cleanup
  cases h1 : df.colIdx "code" with
  | none =>
    simp only
    cases h2 : df.colIdx "description" with
    | none => simp [h2]
    | some j => simp [h2]
  | some i =>
    simp only
    cases h2 : df.cols.findIdx? (· == "description") with
    | none => simp [DataFrame.colIdx, h2]
    | some j => simp [DataFrame.colIdx, h2]

theorem colIdx_basic_cleanup (df : DataFrame) (c : String) :
    (basic_cleanup df).colIdx c = df.colIdx c := by
  simp [DataFrame.colIdx, basic_cleanup_cols]

theorem basic_cleanup_eq {df : DataFrame} {i j : Nat}
    (hi : df.colIdx "code" = some i) (hj : df.colIdx "description" = some j) :
    basic_cleanup df = ⟨df.cols, df.rows.map (cleanupRow i j)⟩ := by
  unfold basic_cleanup
  simp only [hi]
  have hj2 : (⟨df.cols, df.rows.map (mutRow i)⟩ : DataFrame).colIdx
      "description" = some j := hj
  simp only [hj2, List.map_map]
  rfl

theorem colIdx_code_ne_description {df : DataFrame} {i j : Nat}
    (hi : df.colIdx "code" = some i) (hj : df.colIdx "description" = some j) :
    i ≠ j := by
  intro he
  have h1 := colIdx_getElem hi
  have h2 := colIdx_getElem hj
  subst he
  rw [h1] at h2
  exact absurd h2 (by decide)

theorem dedupeBy_sublist (i : Nat) :
    ∀ (l : List Row) (seen : List (Option String)),
      List.Sublist (dedupeBy i l seen) l := by
  intro l
  induction l with
  | nil => intro seen; simp [dedupeBy]
  | cons r rest ih =>
    intro seen
    simp only [dedupeBy]
    by_cases hk : r.getD i none ∈ seen
    · rw [if_pos hk]
      exact (ih seen).cons r
    · rw [if_neg hk]
      exact (ih _).cons₂ r

theorem dedupeBy_keys_nodup (i : Nat) :
    ∀ (l : List Row) (seen : List (Option String)),
      ((dedupeBy i l seen).map (fun r => r.getD i none)).Nodup ∧
      ∀ k ∈ (dedupeBy i l seen).map (fun r => r.getD i none), k ∉ seen := by
  intro l
  induction l with
  | nil => intro seen; simp [dedupeBy]
  | cons r rest ih =>
    intro seen
    simp only [dedupeBy]
    by_cases hk : r.getD i none ∈ seen
    · rw [if_pos hk]
      exact ih seen
    · rw [if_neg hk]
      obtain ⟨hnd, hni⟩ := ih (r.getD i none :: seen)
      constructor
      · simp only [List.map_cons, List.nodup_cons]
        refine ⟨fun hmem => (hni _ hmem) (List.mem_cons_self _ _), hnd⟩
      · intro k hkmem
        simp only [List.map_cons, List.mem_cons] at hkmem
        cases hkmem with
        | inl he => rw [he]; exact hk
        | inr hm => exact fun hks => (hni k hm) (List.mem_cons_of_mem _ hks)

theorem dedupeBy_find? (i : Nat) :
    ∀ (l : List Row) (seen : List (Option String)) (k : Option String),
      k ∉ seen →
      (dedupeBy i l seen).find? (fun r => r.getD i none == k) =
        l.find? (fun r => r.getD i none == k) := by
  intro l
  induction l with
  | nil => intro seen k _; simp [dedupeBy]
  | cons r rest ih =>
    intro seen k hk
    simp only [dedupeBy]
    by_cases hmem : r.getD i none ∈ seen
    · rw [if_pos hmem, ih seen k hk]
      symm
      apply List.find?_cons_of_neg
      simp only [beq_iff_eq]
      intro he
      rw [he] at hmem
      exact hk hmem
    · rw [if_neg hmem]
      by_cases heq : r.getD i none = k
      · have h1 : List.find? (fun r' => List.getD r' i none == k)
            (r :: dedupeBy i rest (List.getD r i none :: seen)) = some r :=
          List.find?_cons_of_pos _ (by simp only [beq_iff_eq]; simpa using heq)
        have h2 : List.find? (fun r' => List.getD r' i none == k)
            (r :: rest) = some r :=
          List.find?_cons_of_pos _ (by simp only [beq_iff_eq]; simpa using heq)
        rw [h1, h2]
      · have hne : ¬ ((fun r' => List.getD r' i none == k) r = true) := by
          simp only [beq_iff_eq]
          exact heq
        have h1 : List.find? (fun r' => List.getD r' i none == k)
            (r :: dedupeBy i rest (List.getD r i none :: seen)) =
            List.find? (fun r' => List.getD r' i none == k)
              (dedupeBy i rest (List.getD r i none :: seen)) :=
          List.find?_cons_of_neg _ hne
        have h2 : List.find? (fun r' => List.getD r' i none == k)
            (r :: rest) = List.find? (fun r' => List.getD r' i none == k) rest :=
          List.find?_cons_of_neg _ hne
        rw [h1, h2]
        apply ih
        simp only [List.mem_cons]
        intro hko
        cases hko with
        | inl h => exact heq h.symm
        | inr h => exact hk h

theorem clean_ok_spec (df : DataFrame) (now : String) (out : DataFrame)
    (h : clean_icd10_data df now = .ok out) :
    ∃ i j,
      (⟨renameCols df.cols, df.rows⟩ : DataFrame).colIdx "code" = some i ∧
      (⟨renameCols df.cols, df.rows⟩ : DataFrame).colIdx "description" = some j ∧
      i ≠ j ∧
      out = ⟨renameCols df.cols ++ ["last_updated"],
        (dedupeBy i ((df.rows.map (cleanupRow i j)).filter (dropnaKeep i j)) []).map
          (fun r => r ++ [some now])⟩ := by
  simp only [clean_icd10_data] at h
  rw [colIdx_basic_cleanup, colIdx_basic_cleanup] at h
  cases hi : (⟨renameCols df.cols, df.rows⟩ : DataFrame).colIdx "code" with
  | none => rw [hi] at h; cases h
  | some i =>
    cases hj : (⟨renameCols df.cols, df.rows⟩ : DataFrame).colIdx "description" with
    | none => rw [hi, hj] at h; cases h
    | some j =>
      rw [hi, hj] at h
      simp only [Except.ok.injEq] at h
      rw [basic_cleanup_eq hi hj] at h
      exact ⟨i, j, rfl, rfl, colIdx_code_ne_description hi hj, h.symm⟩

/-- C3: on success, `clean_icd10_data` deduplicates by the (normalised)
`code` value keeping the first occurrence in original order, and the
output is a stable subsequence: the output rows are the timestamped
deduplication of the surviving rows, the output code values contain no
duplicate, the deduplicated list is a sublist (order preserved, no
re-sort) of both the surviving rows and the cleaned input rows, and for
every code value the first surviving row with that code is the one
kept. -/
theorem clean_output_unique_first_stable (df : DataFrame) (now : String)
    (out : DataFrame)
    (hWF : ∀ r ∈ df.rows, r.length = df.cols.length)
    (h : clean_icd10_data df now = .ok out) :
    ∃ i j kept deduped,
      (⟨renameCols df.cols, df.rows⟩ : DataFrame).colIdx "code" = some i ∧
      (⟨renameCols df.cols, df.rows⟩ : DataFrame).colIdx "description" = some j ∧
      kept = (df.rows.map (cleanupRow i j)).filter (dropnaKeep i j) ∧
      deduped = dedupeBy i kept [] ∧
      out.rows = deduped.map (fun r => r ++ [some now]) ∧
      (deduped.map (fun r => r.getD i none)).Nodup ∧
      (out.rows.map (fun r => r.getD i none)).Nodup ∧
      List.Sublist deduped kept ∧
      List.Sublist deduped (df.rows.map (cleanupRow i j)) ∧
      (∀ k, deduped.find? (fun r => r.getD i none == k) =
        kept.find? (fun r => r.getD i none == k)) := by
  obtain ⟨i, j, hi, hj, hij, hout⟩ := clean_ok_spec df now out h
  refine ⟨i, j, _, _, hi, hj, rfl, rfl, ?_, ?_, ?_, ?_, ?_, ?_⟩
  · rw [hout]
  · exact (dedupeBy_keys_nodup i _ []).1
  · rw [hout]
    simp only [List.map_map]
    have hilt : i < df.cols.length := by
      have := colIdx_lt_length hi
      simpa [renameCols] using this
    have hkey : ∀ r ∈ dedupeBy i
        ((df.rows.map (cleanupRow i j)).filter (dropnaKeep i j)) [],
        ((fun r => r.getD i none) ∘ fun r => r ++ [some now]) r =
          (fun r => r.getD i none) r := by
      intro r hr
      have hrk := (dedupeBy_sublist i _ []).subset hr
      have hrm := List.mem_of_mem_filter hrk
      obtain ⟨orig, ho, hor⟩ := List.mem_map.mp hrm
      have hlt : i < r.length := by
        rw [← hor, cleanupRow_length, hWF orig ho]
        exact hilt
      simp only [Function.comp_apply, List.getD_eq_getElem?_getD,
        List.getElem?_append_left hlt]
    rw [List.map_congr_left hkey]
    exact (dedupeBy_keys_nodup i _ []).1
  · exact dedupeBy_sublist i _ []
  · exact (dedupeBy_sublist i _ []).trans (List.filter_sublist _)
  · intro k
    exact dedupeBy_find? i _ [] k (by simp)

/-- Witness for C3 at a concrete frame with a duplicated code: the
first "A01" row survives, the second is dropped, order is preserved. -/
theorem clean_output_unique_first_stable_witness :
    ∃ i j kept deduped,
      (⟨renameCols (⟨["Code", "Description"],
          [[some "A01", some "a"], [some "A01", some "b"],
            [some "B02", some "c"]]⟩ : DataFrame).cols,
        (⟨["Code", "Description"],
          [[some "A01", some "a"], [some "A01", some "b"],
            [some "B02", some "c"]]⟩ : DataFrame).rows⟩ : DataFrame).colIdx
        "code" = some i ∧
      (⟨renameCols (⟨["Code", "Description"],
          [[some "A01", some "a"], [some "A01", some "b"],
            [some "B02", some "c"]]⟩ : DataFrame).cols,
        (⟨["Code", "Description"],
          [[some "A01", some "a"], [some "A01", some "b"],
            [some "B02", some "c"]]⟩ : DataFrame).rows⟩ : DataFrame).colIdx
        "description" = some j ∧
      kept = (((⟨["Code", "Description"],
          [[some "A01", some "a"], [some "A01", some "b"],
            [some "B02", some "c"]]⟩ : DataFrame).rows.map
          (cleanupRow i j)).filter (dropnaKeep i j)) ∧
      deduped = dedupeBy i kept [] ∧
      (⟨["code", "description", "last_updated"],
        [[some "A01", some "A", some "TS"],
          [some "B02", some "C", some "TS"]]⟩ : DataFrame).rows =
        deduped.map (fun r => r ++ [some "TS"]) ∧
      (deduped.map (fun r => r.getD i none)).Nodup ∧
      ((⟨["code", "description", "last_updated"],
        [[some "A01", some "A", some "TS"],
          [some "B02", some "C", some "TS"]]⟩ : DataFrame).rows.map
          (fun r => r.getD i none)).Nodup ∧
      List.Sublist deduped kept ∧
      List.Sublist deduped ((⟨["Code", "Description"],
          [[some "A01", some "a"], [some "A01", some "b"],
            [some "B02", some "c"]]⟩ : DataFrame).rows.map (cleanupRow i j)) ∧
      (∀ k, deduped.find? (fun r => r.getD i none == k) =
        kept.find? (fun r => r.getD i none == k)) :=
  clean_output_unique_first_stable
    ⟨["Code", "Description"],
      [[some "A01", some "a"], [some "A01", some "b"], [some "B02", some "c"]]⟩
    "TS"
    ⟨["code", "description", "last_updated"],
      [[some "A01", some "A", some "TS"], [some "B02", some "C", some "TS"]]⟩
    (by intro r hr; simp at hr; rcases hr with h | h | h <;> rw [h] <;> rfl)
    rfl

/-- C5 (amended): `basic_cleanup` stringifies every key cell (a null
code becomes "NAN", a null description becomes "Nan") before the
`dropna`, so the `dropna` keeps every row — records still missing code
or description after the rename step are not dropped but survive with
those placeholder strings.  Consequently no output record has a *null*
code or description cell, but records that were null after renaming do
appear in the clean output. -/
theorem clean_dropna_is_noop (df : DataFrame) (now : String) (out : DataFrame)
    (hWF : ∀ r ∈ df.rows, r.length = df.cols.length)
    (h : clean_icd10_data df now = .ok out) :
    ∃ i j,
      (⟨renameCols df.cols, df.rows⟩ : DataFrame).colIdx "code" = some i ∧
      (⟨renameCols df.cols, df.rows⟩ : DataFrame).colIdx "description" = some j ∧
      (df.rows.map (cleanupRow i j)).filter (dropnaKeep i j) =
        df.rows.map (cleanupRow i j) ∧
      (∀ r ∈ df.rows, (cleanupRow i j r).getD i none =
          some (normCode (r.getD i none)) ∧
        (cleanupRow i j r).getD j none =
          some (normDescription (r.getD j none))) ∧
      (∀ r ∈ out.rows, (r.getD i none).isSome = true ∧
        (r.getD j none).isSome = true) := by
  obtain ⟨i, j, hi, hj, hij, hout⟩ := clean_ok_spec df now out h
  have hilt : i < df.cols.length := by
    simpa [renameCols] using colIdx_lt_length hi
  have hjlt : j < df.cols.length := by
    simpa [renameCols] using colIdx_lt_length hj
  refine ⟨i, j, hi, hj, ?_, ?_, ?_⟩
  · apply List.filter_eq_self.mpr
    intro r hr
    obtain ⟨orig, ho, hor⟩ := List.mem_map.mp hr
    have hio : i < orig.length := by rw [hWF orig ho]; exact hilt
    have hjo : j < orig.length := by rw [hWF orig ho]; exact hjlt
    rw [← hor]
    simp only [dropnaKeep, cleanupRow_getD_code hij hio,
      cleanupRow_getD_desc hij hjo, Option.isSome_some, Bool.and_self]
  · intro r hr
    have hio : i < r.length := by rw [hWF r hr]; exact hilt
    have hjo : j < r.length := by rw [hWF r hr]; exact hjlt
    exact ⟨cleanupRow_getD_code hij hio, cleanupRow_getD_desc hij hjo⟩
  · intro r hr
    rw [hout] at hr
    simp only at hr
    obtain ⟨rr, hrr, hreq⟩ := List.mem_map.mp hr
    have hrk := (dedupeBy_sublist i _ []).subset hrr
    have hrm := List.mem_of_mem_filter hrk
    obtain ⟨orig, ho, hor⟩ := List.mem_map.mp hrm
    have hio : i < orig.length := by rw [hWF orig ho]; exact hilt
    have hjo : j < orig.length := by rw [hWF orig ho]; exact hjlt
    have hleni : i < rr.length := by rw [← hor, cleanupRow_length]; exact hio
    have hlenj : j < rr.length := by rw [← hor, cleanupRow_length]; exact hjo
    have hci := cleanupRow_getD_code hij hio
    have hcj := cleanupRow_getD_desc hij hjo
    rw [hor] at hci hcj
    constructor
    · rw [← hreq]
      simp only [List.getD_eq_getElem?_getD, List.getElem?_append_left hleni]
      simp only [List.getD_eq_getElem?_getD] at hci
      rw [hci]
      rfl
    · rw [← hreq]
      simp only [List.getD_eq_getElem?_getD, List.getElem?_append_left hlenj]
      simp only [List.getD_eq_getElem?_getD] at hcj
      rw [hcj]
      rfl

/-- Witness for C5 (amended) at a concrete frame whose only row has a
null code: it survives the `dropna` as the placeholder "NAN". -/
theorem clean_dropna_is_noop_witness :
    ∃ i j,
      (⟨renameCols (⟨["Code", "Description"],
          [[none, some " foo bar "]]⟩ : DataFrame).cols,
        (⟨["Code", "Description"],
          [[none, some " foo bar "]]⟩ : DataFrame).rows⟩ : DataFrame).colIdx
        "code" = some i ∧
      (⟨renameCols (⟨["Code", "Description"],
          [[none, some " foo bar "]]⟩ : DataFrame).cols,
        (⟨["Code", "Description"],
          [[none, some " foo bar "]]⟩ : DataFrame).rows⟩ : DataFrame).colIdx
        "description" = some j ∧
      ((⟨["Code", "Description"],
          [[none, some " foo bar "]]⟩ : DataFrame).rows.map
          (cleanupRow i j)).filter (dropnaKeep i j) =
        (⟨["Code", "Description"],
          [[none, some " foo bar "]]⟩ : DataFrame).rows.map (cleanupRow i j) ∧
      (∀ r ∈ (⟨["Code", "Description"],
          [[none, some " foo bar "]]⟩ : DataFrame).rows,
        (cleanupRow i j r).getD i none = some (normCode (r.getD i none)) ∧
        (cleanupRow i j r).getD j none =
          some (normDescription (r.getD j none))) ∧
      (∀ r ∈ (⟨["code", "description", "last_updated"],
          [[some "NAN", some "Foo Bar", some "TS"]]⟩ : DataFrame).rows,
        (r.getD i none).isSome = true ∧ (r.getD j none).isSome = true) :=
  clean_dropna_is_noop
    ⟨["Code", "Description"], [[none, some " foo bar "]]⟩ "TS"
    ⟨["code", "description", "last_updated"],
      [[some "NAN", some "Foo Bar", some "TS"]]⟩
    (by intro r hr; simp at hr; rw [hr]; rfl)
    rfl

/-- Counterexample to C5 as stated: a record whose code is still null
after the rename step is not dropped — it survives into the clean
output with the placeholder code "NAN". -/
theorem clean_null_code_survives_cex :
    clean_icd10_data ⟨["Code", "Description"], [[none, some " foo bar "]]⟩
      "TS" =
      .ok ⟨["code", "description", "last_updated"],
        [[some "NAN", some "Foo Bar", some "TS"]]⟩ := rfl
